import Mathlib

/-!
Verification of the `influxdb` python client (`src/influxdb/client.py`)
against its natural-language specification.

The file shallowly embeds the client's data model and operations:
pure computations become Lean functions, the network is represented by an
explicit list of emitted `Effect`s together with a caller-supplied
`Response` oracle for the HTTP round trip an operation would perform,
and Python exceptions become an explicit `PyErr` error type through
`Except`.  Python dictionaries used for query parameters are embedded as
association lists with Python's `dict.update` semantics.

Attribute access is modelled faithfully: `__init__` (client.py lines
40-66) assigns one fixed set of attribute names (`initAssignedNames`),
and every `self.X` read in an operation is guarded by a lookup in that
namespace, raising `AttributeError` exactly where CPython does.  Because
the send paths read underscored names (`_username`, `_database`,
`_host`, ...) that the constructor never assigns, every operation of a
constructor-built client aborts before reaching the network; the code
after such a failing read is retained in the definitions to mirror the
source, but is unreachable.
-/

namespace Influx

/-- JSON values, as produced/consumed by Python's `json` module in this
client (the client itself only ever builds objects, arrays, strings,
booleans, ints and null). -/
inductive Json where
  | null : Json
  | bool (b : Bool) : Json
  | int (n : Int) : Json
  | str (s : String) : Json
  | arr (xs : List Json) : Json
  | obj (kvs : List (String × Json)) : Json
deriving Repr

/-- Escape a string the way `json.dumps` does for the characters this
client can produce (quote, backslash, newline, tab, carriage return). -/
def jsonEscape (s : String) : String :=
  s.data.foldl (fun acc c =>
    acc ++ (if c = '"' then "\\\""
            else if c = '\\' then "\\\\"
            else if c = '\n' then "\\n"
            else if c = '\t' then "\\t"
            else if c = '\r' then "\\r"
            else String.singleton c)) ""

/-- Encoding by `json.dumps` of a string value. -/
def quoteStr (s : String) : String := "\"" ++ jsonEscape s ++ "\""

/-- Join with `json.dumps`' default item separator `", "`. -/
def joinComma : List String → String
  | [] => ""
  | [x] => x
  | x :: xs => x ++ ", " ++ joinComma xs

mutual
/-- Python's `json.dumps` with default separators, restricted to the
values of `Json`. -/
def dumps : Json → String
  | .null => "null"
  | .bool true => "true"
  | .bool false => "false"
  | .int n => toString n
  | .str s => quoteStr s
  | .arr xs => "[" ++ joinComma (dumpsList xs) ++ "]"
  | .obj kvs => "\x7b" ++ joinComma (dumpsObj kvs) ++ "\x7d"

def dumpsList : List Json → List String
  | [] => []
  | x :: xs => dumps x :: dumpsList xs

def dumpsObj : List (String × Json) → List String
  | [] => []
  | (k, v) :: kvs => (quoteStr k ++ ": " ++ dumps v) :: dumpsObj kvs
end

/-- A value appearing as an HTTP query parameter (the client passes
strings and, for `chunked`, a Python boolean). -/
inductive PyVal where
  | str (s : String) : PyVal
  | bool (b : Bool) : PyVal
deriving Repr, DecidableEq

/-- One externally visible network action. -/
inductive Effect where
  /-- An HTTP request issued through the module-level `requests` session
  (client.py lines 88-96): method, full URL, merged query parameters,
  optional serialized body, TLS-verification flag and timeout. -/
  | http (method : String) (url : String) (params : List (String × PyVal))
      (data : Option String) (verify : Bool) (timeout : Option Nat) : Effect
  /-- A UDP datagram (client.py line 107): payload and destination. -/
  | udp (payload : String) (host : String) (port : Nat) : Effect
deriving Repr

/-- The query parameters carried by an effect (empty for a datagram). -/
def Effect.paramsOf : Effect → List (String × PyVal)
  | .http _ _ ps _ _ _ => ps
  | .udp _ _ _ => []

/-- Python exceptions this code can raise. -/
inductive PyErr where
  | assertionError : PyErr
  | nameError (name : String) : PyErr
  | attributeError (name : String) : PyErr
  /-- Exception `InfluxDBClientError(message, code)` (client.py lines 11-18):
  `self.message` and `self.code`. -/
  | influxDBClientError (message : String) (code : Nat) : PyErr
  | valueError : PyErr
deriving Repr, DecidableEq

/-- The part of an HTTP response the client reads. -/
structure Response where
  status_code : Nat
  content : String
deriving Repr, DecidableEq

/-- The client's configuration, as written by `__init__`
(client.py lines 40-57).  `database` is optional in Python
(`None` by default). -/
structure Client where
  host : String
  port : Nat
  username : String
  password : String
  database : Option String
  timeout : Option Nat
  verify_ssl : Bool
  use_udp : Bool
  udp_port : Nat
  scheme : String
deriving Repr

/-- Python's `str.format` of an optional value: `None` renders as
`"None"`. -/
def pyFormatOpt : Option String → String
  | none => "None"
  | some s => s

/-- The value `self._baseurl` as assembled at client.py lines 59-62. -/
def Client.baseurl (c : Client) : String :=
  c.scheme ++ "://" ++ c.host ++ ":" ++ toString c.port

/-- The instance attributes `__init__` assigns (client.py lines 40-66):
the plain names at lines 40-50, `udp_socket` only when `use_udp` is
true (line 51-52), `scheme` (line 54-57), and the two underscored names
`_baseurl` and `_headers` (lines 59-66). -/
def initAssignedNames (use_udp : Bool) : List String :=
  ["host", "port", "username", "password", "database", "timeout",
   "verify_ssl", "use_udp", "udp_port"]
  ++ (if use_udp then ["udp_socket"] else [])
  ++ ["scheme", "_baseurl", "_headers"]

/-- The attribute names `request` reads before the network call at
lines 88-96, in evaluation order: `self._baseurl` (line 73), then
`self._username` and `self._password` in the `args` dict (lines
79-80), then the keyword arguments of `session.request` (lines 93-95). -/
def requestReadsPreNet : List String :=
  ["_baseurl", "_username", "_password", "_headers", "_verify_ssl", "_timeout"]

/-- Attribute reads of a non-batched HTTP-mode `write_points` before
its network call: `self._database` (line 135), `self.use_udp` (line
138), then the reads of `request`. -/
def writePointsHttpReadsPreNet : List String :=
  "_database" :: "use_udp" :: requestReadsPreNet

/-- Attribute reads of a UDP-mode `write_points` before `sendto` (line
107): `self._database`, `self.use_udp`, then `send_packet` evaluates
`self.udp_socket`, `self._host` and `self.udp_port`. -/
def writePointsUdpReadsPreNet : List String :=
  ["_database", "use_udp", "udp_socket", "_host", "udp_port"]

/-- Attribute reads of `query` before its network call: `self._database`
(line 155), then the reads of `request`. -/
def queryReadsPreNet : List String :=
  "_database" :: requestReadsPreNet

/-- An access sequence hits an unassigned attribute (and so raises
`AttributeError` before reaching its end) iff some read name is outside
the assigned set. -/
def hitsMissingAttr (reads assigned : List String) : Bool :=
  reads.any (fun r => ¬ assigned.contains r)

/-- Python attribute presence on a constructor-built client: exactly
the names `__init__` assigned.  Every `self.X` read in the operations
below is guarded by this test; a read of a name outside the set raises
`AttributeError`, as in CPython. -/
def Client.hasAttr (c : Client) (name : String) : Bool :=
  (initAssignedNames c.use_udp).contains name

/-- Write-or-insert of one key into a Python dict embedded as an
association list: an existing key keeps its position and gets the new
value, a fresh key is appended. -/
def setKey : List (String × PyVal) → String → PyVal → List (String × PyVal)
  | [], k, v => [(k, v)]
  | (k0, v0) :: rest, k, v =>
      if k0 = k then (k0, v) :: rest else (k0, v0) :: setKey rest k v

/-- Python's `dict.update`: each key of `upd`, in order, overwrites or
extends `base`. -/
def dictUpdate (base : List (String × PyVal)) : List (String × PyVal) → List (String × PyVal)
  | [] => base
  | (k, v) :: rest => dictUpdate (setKey base k v) rest

/-- Python's substring test `needle in hay` on strings. -/
def pyInStr (needle hay : String) : Bool :=
  (List.range (hay.length + 1)).any (fun i => needle.data.isPrefixOf (hay.data.drop i))

/-- Truthiness of the optional `batch_size` argument: Python's
`if batch_size:` is false for `None` and for `0`. -/
def pyTruthy : Option Nat → Bool
  | none => false
  | some n => n ≠ 0

/-- Embeds `request` (client.py lines 68-102) with faithful attribute
access.  Line 73 reads `self._baseurl` (assigned, lines 59-62); the
`args` dict at lines 78-81 then reads `self._username` — a name
`__init__` never assigns — so every call on a constructor-built client
raises `AttributeError` here, before `args.update(params)` (line 83),
before the body is serialized, and before `session.request` (lines
88-96).  The code after each failing guard mirrors the source (merge
via `dict.update`, one HTTP effect, then the status check of lines
98-102 which raises `InfluxDBClientError(response.content,
response.status_code)` on mismatch) but is unreachable; the values it
would use are the constructor's stored ones. -/
def request (c : Client) (resp : Response) (url : String) (method : String)
    (params : List (String × PyVal)) (data : Option Json) (status_code : Nat) :
    Except PyErr Response × List Effect :=
  if c.hasAttr "_baseurl" = false then
    (Except.error (PyErr.attributeError "_baseurl"), [])
  else
  let full_url := c.baseurl ++ "/" ++ url
  if c.hasAttr "_username" = false then
    (Except.error (PyErr.attributeError "_username"), [])
  else
  if c.hasAttr "_password" = false then
    (Except.error (PyErr.attributeError "_password"), [])
  else
  let args := dictUpdate [("u", PyVal.str c.username), ("p", PyVal.str c.password)] params
  let body := data.map dumps
  if c.hasAttr "_headers" = false then
    (Except.error (PyErr.attributeError "_headers"), [])
  else
  if c.hasAttr "_verify_ssl" = false then
    (Except.error (PyErr.attributeError "_verify_ssl"), [])
  else
  if c.hasAttr "_timeout" = false then
    (Except.error (PyErr.attributeError "_timeout"), [])
  else
  let eff := Effect.http method full_url args body c.verify_ssl c.timeout
  if resp.status_code ≠ status_code then
    (Except.error (PyErr.influxDBClientError resp.content resp.status_code), [eff])
  else
    (Except.ok resp, [eff])

/-- Embeds `send_packet` (client.py lines 104-107) with faithful
attribute access: `json.dumps` of the packet (lines 105-106), then
line 107 reads `self.udp_socket` (assigned only under `use_udp`) and,
while evaluating the destination tuple, `self._host` — never assigned,
so the datagram send is unreachable. -/
def send_packet (c : Client) (packet : Json) : Except PyErr Unit × List Effect :=
  let data := dumps packet
  if c.hasAttr "udp_socket" = false then
    (Except.error (PyErr.attributeError "udp_socket"), [])
  else
  if c.hasAttr "_host" = false then
    (Except.error (PyErr.attributeError "_host"), [])
  else
  if c.hasAttr "udp_port" = false then
    (Except.error (PyErr.attributeError "udp_port"), [])
  else
  (Except.ok (), [Effect.udp data c.host c.udp_port])

/-- One dataset passed to `write_points`: a dict with keys `name`,
`columns` and `points`. -/
structure Series where
  name : String
  columns : List String
  points : List (List Json)
deriving Repr

/-- The JSON object `write_points` serializes for one dataset. -/
def Series.toJson (d : Series) : Json :=
  Json.obj [("name", Json.str d.name),
            ("columns", Json.arr (d.columns.map Json.str)),
            ("points", Json.arr (d.points.map Json.arr))]

def seriesListToJson (data : List Series) : Json :=
  Json.arr (data.map Series.toJson)

/-- The value of the free name `n` used at client.py line 129
(`points[i:i+n]`).  No binding of `n` exists anywhere in the module
(module scope defines only `json`, `socket`, `requests`, `session`,
`InfluxDBClientError` and `InfluxDBClient`), so evaluating the name
raises `NameError`; this is the absent binding. -/
def globalN : Option Nat := none

/-- Evaluates `xrange(0, len, step)` for a positive step: the chunk
start indices. -/
def batchStarts (len step : Nat) : List Nat :=
  (List.range ((len + step - 1) / step)).map (· * step)

/-- Python's slice `l[i:j]` for `0 ≤ i ≤ j`. -/
def pySlice (l : List α) (i j : Nat) : List α :=
  (l.drop i).take (j - i)

/-- The non-batched tail of `write_points` (client.py lines 120 and
135-147): the precision assertion, then line 135 reads
`self._database` — never assigned, so every call on a
constructor-built client raises `AttributeError` here.  The rest
mirrors the source (the `use_udp` branch at line 138, one datagram via
`send_packet` or one POST via `request` with expected status 200) but
is unreachable. -/
def write_points_single (c : Client) (resp : Response) (data : List Series)
    (time_precision : String) : Except PyErr Unit × List Effect :=
  if pyInStr time_precision "smu" = false then
    (Except.error PyErr.assertionError, [])
  else
  if c.hasAttr "_database" = false then
    (Except.error (PyErr.attributeError "_database"), [])
  else
  let url := "db/" ++ pyFormatOpt c.database ++ "/series"
  let params := [("time_precision", PyVal.str time_precision)]
  if c.hasAttr "use_udp" = false then
    (Except.error (PyErr.attributeError "use_udp"), [])
  else
  if c.use_udp then
    match send_packet c (seriesListToJson data) with
    | (Except.error e, effs) => (Except.error e, effs)
    | (Except.ok _, effs) => (Except.ok (), effs)
  else
    match request c resp url "POST" params (some (seriesListToJson data)) 200 with
    | (Except.error e, effs) => (Except.error e, effs)
    | (Except.ok _, effs) => (Except.ok (), effs)

/-- The inner batch loop over one dataset's chunk starts (client.py
lines 125-132) as it would run with `n` bound to the value `n`: each
chunk is one recursive `write_points` call with `batch_size=None`,
i.e. one `write_points_single` call; an exception aborts the loop. -/
def runBatchStarts (c : Client) (resp : Response) (d : Series) (n : Nat)
    (time_precision : String) : List Nat → Except PyErr Unit × List Effect
  | [] => (Except.ok (), [])
  | i :: rest =>
      let batch : List Series := [⟨d.name, d.columns, pySlice d.points i (i + n)⟩]
      match write_points_single c resp batch time_precision with
      | (Except.error e, effs) => (Except.error e, effs)
      | (Except.ok _, effs) =>
          match runBatchStarts c resp d n time_precision rest with
          | (r, effs2) => (r, effs ++ effs2)

/-- The outer batch loop over the datasets (client.py lines 123-133) as
it would run with `n` bound. -/
def runBatchData (c : Client) (resp : Response) (n : Nat) (batch_size : Nat)
    (time_precision : String) : List Series → Except PyErr Unit × List Effect
  | [] => (Except.ok (), [])
  | d :: rest =>
      match runBatchStarts c resp d n time_precision
          (batchStarts d.points.length batch_size) with
      | (Except.error e, effs) => (Except.error e, effs)
      | (Except.ok _, effs) =>
          match runBatchData c resp n batch_size time_precision rest with
          | (r, effs2) => (r, effs ++ effs2)

/-- Embeds `write_points` (client.py lines 109-147).  First the
assertion `time_precision in "smu"` (Python's substring test).  If
`batch_size` is truthy, the batch loops run: building the first chunk
evaluates the unbound name `n` (line 129), so the first dataset whose
`xrange` is non-empty raises `NameError` before any send and before
any attribute read; with no such dataset the loops complete and the
method returns having sent nothing.  Otherwise the non-batched tail
runs (and raises `AttributeError` at line 135, see
`write_points_single`). -/
def write_points (c : Client) (resp : Response) (data : List Series)
    (batch_size : Option Nat) (time_precision : String) :
    Except PyErr Unit × List Effect :=
  if pyInStr time_precision "smu" = false then
    (Except.error PyErr.assertionError, [])
  else if pyTruthy batch_size then
    match globalN with
    | none =>
        if data.any (fun d => d.points.length ≠ 0) then
          (Except.error (PyErr.nameError "n"), [])
        else
          (Except.ok (), [])
    | some n =>
        runBatchData c resp n (batch_size.getD 1) time_precision data
  else
    write_points_single c resp data time_precision

/-- Characters Python's `json` module treats as whitespace. -/
def jsonWs (c : Char) : Bool :=
  c = ' ' ∨ c = '\t' ∨ c = '\n' ∨ c = '\r'

def skipWs (cs : List Char) : List Char :=
  cs.dropWhile jsonWs

/-- Parse the characters of a JSON string after the opening quote,
undoing the escapes `jsonEscape` can produce plus `\/`, `\b`, `\f`. -/
def parseStringChars : List Char → Option (String × List Char)
  | [] => none
  | '"' :: rest => some ("", rest)
  | '\\' :: e :: rest => do
      let c ← (if e = '"' then some '"'
               else if e = '\\' then some '\\'
               else if e = '/' then some '/'
               else if e = 'n' then some '\n'
               else if e = 't' then some '\t'
               else if e = 'r' then some '\r'
               else if e = 'b' then some (Char.ofNat 8)
               else if e = 'f' then some (Char.ofNat 12)
               else none)
      let (s, rest2) ← parseStringChars rest
      some (String.singleton c ++ s, rest2)
  | '\\' :: [] => none
  | c :: rest => do
      let (s, rest2) ← parseStringChars rest
      some (String.singleton c ++ s, rest2)

/-- Parse a JSON integer (optional minus sign, digits). -/
def parseInt (cs : List Char) : Option (Int × List Char) :=
  let (neg, cs1) := match cs with
    | '-' :: rest => (true, rest)
    | _ => (false, cs)
  let digits := cs1.takeWhile Char.isDigit
  let rest := cs1.dropWhile Char.isDigit
  if digits.isEmpty then none
  else
    let v : Nat := digits.foldl (fun acc d => acc * 10 + (d.toNat - 48)) 0
    some (if neg then -(v : Int) else (v : Int), rest)

mutual
/-- Fuel-indexed recursive-descent JSON parser: one JSON value and the
remaining input. -/
def parseJsonF : Nat → List Char → Option (Json × List Char)
  | 0, _ => none
  | fuel + 1, cs =>
      match skipWs cs with
      | 'n' :: 'u' :: 'l' :: 'l' :: rest => some (Json.null, rest)
      | 't' :: 'r' :: 'u' :: 'e' :: rest => some (Json.bool true, rest)
      | 'f' :: 'a' :: 'l' :: 's' :: 'e' :: rest => some (Json.bool false, rest)
      | '"' :: rest => do
          let (s, rest2) ← parseStringChars rest
          some (Json.str s, rest2)
      | '[' :: rest =>
          (match skipWs rest with
           | ']' :: rest2 => some (Json.arr [], rest2)
           | _ => do
              let (xs, rest2) ← parseArrElems fuel rest
              some (Json.arr xs, rest2))
      | '\x7b' :: rest =>
          (match skipWs rest with
           | '\x7d' :: rest2 => some (Json.obj [], rest2)
           | _ => do
              let (kvs, rest2) ← parseObjElems fuel rest
              some (Json.obj kvs, rest2))
      | cs1 => do
          let (v, rest) ← parseInt cs1
          some (Json.int v, rest)

/-- Comma-separated array elements up to the closing bracket. -/
def parseArrElems : Nat → List Char → Option (List Json × List Char)
  | 0, _ => none
  | fuel + 1, cs => do
      let (x, rest) ← parseJsonF fuel cs
      match skipWs rest with
      | ',' :: rest2 => do
          let (xs, rest3) ← parseArrElems fuel rest2
          some (x :: xs, rest3)
      | ']' :: rest2 => some ([x], rest2)
      | _ => none

/-- Comma-separated `"key": value` members up to the closing brace. -/
def parseObjElems : Nat → List Char → Option (List (String × Json) × List Char)
  | 0, _ => none
  | fuel + 1, cs => do
      match skipWs cs with
      | '"' :: rest => do
          let (k, rest2) ← parseStringChars rest
          match skipWs rest2 with
          | ':' :: rest3 => do
              let (v, rest4) ← parseJsonF fuel rest3
              match skipWs rest4 with
              | ',' :: rest5 => do
                  let (kvs, rest6) ← parseObjElems fuel rest5
                  some ((k, v) :: kvs, rest6)
              | '\x7d' :: rest5 => some ([(k, v)], rest5)
              | _ => none
          | _ => none
      | _ => none
end

/-- Python's `json.loads`: parse one JSON document and require the rest
of the input to be whitespace. -/
def json_loads (s : String) : Option Json :=
  match parseJsonF (2 * s.length + 2) s.data with
  | some (j, rest) => if skipWs rest = [] then some j else none
  | none => none

/-- Embeds `query` (client.py lines 149-176): the precision assertion
(line 153), then line 155 reads `self._database` — never assigned, so
every call on a constructor-built client raises `AttributeError`
there, before the parameter dict is built and before `request`.  The
unreachable remainder mirrors the source: a GET with parameters `q`,
`time_precision` and `chunked` taken verbatim from the arguments, then
`json.loads` of the response body (the `try`/`except TypeError` around
it is only the python-2/3 bytes shim; a decode failure raises). -/
def query (c : Client) (resp : Response) (q : String) (time_precision : String)
    (chunked : Bool) : Except PyErr Json × List Effect :=
  if pyInStr time_precision "smu" = false then
    (Except.error PyErr.assertionError, [])
  else
  if c.hasAttr "_database" = false then
    (Except.error (PyErr.attributeError "_database"), [])
  else
  let url := "db/" ++ pyFormatOpt c.database ++ "/series"
  let params := [("q", PyVal.str q),
                 ("time_precision", PyVal.str time_precision),
                 ("chunked", PyVal.bool chunked)]
  match request c resp url "GET" params none 200 with
  | (Except.error e, effs) => (Except.error e, effs)
  | (Except.ok r, effs) =>
      match json_loads r.content with
      | some j => (Except.ok j, effs)
      | none => (Except.error PyErr.valueError, effs)

/-- Embeds `update_database_user_password` (client.py lines 362-380):
line 366 reads `self._database` — never assigned, so every call on a
constructor-built client raises `AttributeError` there and the client
is returned unchanged.  The unreachable remainder mirrors the source:
the POST via `request`, then line 379 reads `self._username`, and line
380 assigns the attribute `_password` — a name distinct from the
constructor's `password` field, so even that assignment would leave
the record of constructor fields unchanged.  Returns the result, the
effects, and the client's state after the call. -/
def update_database_user_password (c : Client) (resp : Response)
    (username new_password : String) :
    (Except PyErr Unit × List Effect) × Client :=
  if c.hasAttr "_database" = false then
    ((Except.error (PyErr.attributeError "_database"), []), c)
  else
  let url := "db/" ++ pyFormatOpt c.database ++ "/users/" ++ username
  let data := Json.obj [("password", Json.str new_password)]
  match request c resp url "POST" [] (some data) 200 with
  | (Except.error e, effs) => ((Except.error e, effs), c)
  | (Except.ok _, effs) =>
      if c.hasAttr "_username" = false then
        ((Except.error (PyErr.attributeError "_username"), effs), c)
      else
      if username = c.username then
        ((Except.ok (), effs), c)
      else
        ((Except.ok (), effs), c)

/-- The public operations of `InfluxDBClient`, with their arguments. -/
inductive Op where
  | writePoints (data : List Series) (batch_size : Option Nat) (tp : String) : Op
  | queryOp (q : String) (tp : String) (chunked : Bool) : Op
  | createDatabase (db : String) : Op
  | deleteDatabase (db : String) : Op
  | getDatabaseList : Op
  | deleteSeries (s : String) : Op
  | getListClusterAdmins : Op
  | addClusterAdmin (u p : String) : Op
  | updateClusterAdminPassword (u p : String) : Op
  | deleteClusterAdmin (u : String) : Op
  | setDatabaseAdmin (u : String) : Op
  | unsetDatabaseAdmin (u : String) : Op
  | alterDatabaseAdmin (u : String) (isAdmin : Bool) : Op
  | getDatabaseUsers : Op
  | addDatabaseUser (u p : String) : Op
  | updateDatabaseUserPassword (u p : String) : Op
  | deleteDatabaseUser (u : String) : Op

/-- The client's state after one operation.  The only assignment to an
attribute of `self` outside `__init__` in the whole of client.py is
line 380 in `update_database_user_password`; every other method leaves
the instance untouched. -/
def runOpState (c : Client) (resp : Response) : Op → Client
  | .updateDatabaseUserPassword u p => (update_database_user_password c resp u p).2
  | _ => c

/-- A mutable location of the kinds claim C8 enumerates: the
module-level `requests.Session` bound at client.py line 8, a client
instance's UDP socket, or an attribute of a particular client instance
(identified by `id`). -/
inductive Loc where
  | moduleSession : Loc
  | clientSocket (id : Nat) : Loc
  | clientAttr (id : Nat) (name : String) : Loc
deriving Repr, DecidableEq

/-- The instance-attribute names an operation actually reads or writes
before it returns or raises, traced through the source: every
operation aborts at its first read of a name `__init__` never
assigned.  Operations whose URL template uses `self._database` stop
there (lines 135/155/238/319/334/348/366/386); the remaining HTTP
operations reach `request`, which reads `self._baseurl` (line 73,
assigned) and then stops at `self._username` (line 79).  A batched
`write_points` reads no `self` attribute at all (its loop raises
`NameError` on the unbound `n`, or returns, before line 135), and a
write whose precision assertion fails reads none either.  No operation
ever reaches `session.request` (line 88) or `sendto` (line 107), so no
operation touches the module session or a socket. -/
def footprintNames : Op → List String
  | .writePoints _ bs tp =>
      if pyInStr tp "smu" = false then []
      else if pyTruthy bs then []
      else ["_database"]
  | .queryOp _ tp _ => if pyInStr tp "smu" = false then [] else ["_database"]
  | .createDatabase _ => ["_baseurl", "_username"]
  | .deleteDatabase _ => ["_baseurl", "_username"]
  | .getDatabaseList => ["_baseurl", "_username"]
  | .deleteSeries _ => ["_database"]
  | .getListClusterAdmins => ["_baseurl", "_username"]
  | .addClusterAdmin _ _ => ["_baseurl", "_username"]
  | .updateClusterAdminPassword _ _ => ["_baseurl", "_username"]
  | .deleteClusterAdmin _ => ["_baseurl", "_username"]
  | .setDatabaseAdmin _ => ["_database"]
  | .unsetDatabaseAdmin _ => ["_database"]
  | .alterDatabaseAdmin _ _ => ["_database"]
  | .getDatabaseUsers => ["_database"]
  | .addDatabaseUser _ _ => ["_database"]
  | .updateDatabaseUserPassword _ _ => ["_database"]
  | .deleteDatabaseUser _ => ["_database"]

/-- The mutable locations an operation on the client with identity `id`
reads or writes: only that instance's own attributes (see
`footprintNames`); never the module session, never a socket. -/
def footprint (id : Nat) (op : Op) : List Loc :=
  (footprintNames op).map (Loc.clientAttr id)

/-- Two footprints have no location in common. -/
def locsShareNothing (a b : List Loc) : Bool :=
  a.all (fun l => decide (l ∉ b))

/-- A client with the constructor's default configuration
(`InfluxDBClient()` with `database="mydb"`). -/
def exClient : Client :=
  { host := "localhost", port := 8086, username := "root", password := "root",
    database := some "mydb", timeout := none, verify_ssl := false,
    use_udp := false, udp_port := 4444, scheme := "http" }

/-- The same configuration with UDP transport enabled. -/
def exClientUdp : Client := { exClient with use_udp := true }

/-- A 200 response whose body is the JSON document `[1, 2]`. -/
def exResp : Response := ⟨200, "[1, 2]"⟩

/-- The dataset of the spec's batching example:
`{name: "cpu", columns: ["value"], points: [[1],[2],[3]]}`. -/
def cpuSeries : Series :=
  ⟨"cpu", ["value"], [[Json.int 1], [Json.int 2], [Json.int 3]]⟩

section AttrLemmas

theorem hasAttr_baseurl (c : Client) : c.hasAttr "_baseurl" = true := by
  unfold Client.hasAttr initAssignedNames
  cases c.use_udp <;> rfl

theorem hasAttr_username (c : Client) : c.hasAttr "_username" = false := by
  unfold Client.hasAttr initAssignedNames
  cases c.use_udp <;> rfl

theorem hasAttr_database (c : Client) : c.hasAttr "_database" = false := by
  unfold Client.hasAttr initAssignedNames
  cases c.use_udp <;> rfl

/-- Every call to `request` on a constructor-built client raises
`AttributeError` reading `self._username` (client.py line 79), having
emitted no network effect. -/
theorem request_attribute_error (c : Client) (resp : Response) (url method : String)
    (params : List (String × PyVal)) (data : Option Json) (sc : Nat) :
    request c resp url method params data sc
      = (Except.error (PyErr.attributeError "_username"), []) := by
  unfold request
  simp [hasAttr_baseurl, hasAttr_username]

/-- A non-batched `write_points` emits nothing; when the precision
assertion passes it raises `AttributeError` reading `self._database`
(client.py line 135). -/
theorem write_points_single_unreachable (c : Client) (resp : Response)
    (data : List Series) (tp : String) :
    (write_points_single c resp data tp).2 = []
    ∧ (pyInStr tp "smu" = true →
        write_points_single c resp data tp
          = (Except.error (PyErr.attributeError "_database"), [])) := by
  unfold write_points_single
  by_cases h : pyInStr tp "smu" = false
  · simp [h]
  · have h' : pyInStr tp "smu" = true := by
      cases hb : pyInStr tp "smu"
      · exact absurd hb h
      · rfl
    simp [h', hasAttr_database]

/-- A `query` call emits nothing; when the precision assertion passes
it raises `AttributeError` reading `self._database` (client.py line
155). -/
theorem query_unreachable (c : Client) (resp : Response) (q tp : String)
    (ch : Bool) :
    (query c resp q tp ch).2 = []
    ∧ (pyInStr tp "smu" = true →
        query c resp q tp ch
          = (Except.error (PyErr.attributeError "_database"), [])) := by
  unfold query
  by_cases h : pyInStr tp "smu" = false
  · simp [h]
  · have h' : pyInStr tp "smu" = true := by
      cases hb : pyInStr tp "smu"
      · exact absurd hb h
      · rfl
    simp [h', hasAttr_database]

/-- A `write_points` call whose `batch_size` is falsy runs exactly the
non-batched tail. -/
theorem write_points_falsy_batch (c : Client) (resp : Response) (data : List Series)
    (bs : Option Nat) (tp : String) (hb : pyTruthy bs = false) :
    write_points c resp data bs tp = write_points_single c resp data tp := by
  unfold write_points
  by_cases h : pyInStr tp "smu" = false
  · simp only [h, if_true, if_pos]
    unfold write_points_single
    simp [h]
  · simp [h, hb]

/-- A `write_points` call with a truthy `batch_size` emits no effect at
all: the unbound `n` stops the batch loops before any send. -/
theorem write_points_truthy_batch_no_effects (c : Client) (resp : Response)
    (data : List Series) (bs : Option Nat) (tp : String) (hb : pyTruthy bs = true) :
    (write_points c resp data bs tp).2 = [] := by
  unfold write_points
  by_cases h : pyInStr tp "smu" = false
  · simp [h]
  · simp only [h, if_false, hb, if_true, globalN]
    split <;> first
      | rfl
      | (split <;> rfl)

/-- No `write_points` call ever emits a network effect. -/
theorem write_points_no_send (c : Client) (resp : Response) (data : List Series)
    (bs : Option Nat) (tp : String) : (write_points c resp data bs tp).2 = [] := by
  cases hb : pyTruthy bs
  · rw [write_points_falsy_batch c resp data bs tp hb]
    exact (write_points_single_unreachable c resp data tp).1
  · exact write_points_truthy_batch_no_effects c resp data bs tp hb

end AttrLemmas

/-- C1: batched `write_points` is claimed to split each dataset's rows
into chunks of exactly `batch_size` rows and send one write call per
chunk; on the spec's own example (`cpu`/`[[1],[2],[3]]`, batch size 2)
the code instead evaluates the unbound name `n` at `points[i:i+n]`
(client.py line 129) and raises `NameError` having sent nothing. -/
theorem c1_batch_write_raises_nameerror :
    write_points exClient exResp [cpuSeries] (some 2) "s"
      = (Except.error (PyErr.nameError "n"), [])
    ∧ write_points exClientUdp exResp [cpuSeries] (some 2) "s"
      = (Except.error (PyErr.nameError "n"), []) := by
  constructor <;> rfl

/-- C2: the attribute names read on the send paths (`_username`,
`_password`, `_verify_ssl`, `_timeout` in `request`; `_database` in
`write_points` and `query`; `_host` in `send_packet`) are all outside
the set of attributes `__init__` assigns (which uses the plain names),
so each of these operations reads a missing attribute — raising
`AttributeError` — strictly before its network call, whether or not the
client was constructed with `use_udp`. -/
theorem c2_underscore_attributes_never_assigned :
    (["_username", "_password", "_verify_ssl", "_timeout", "_database", "_host"].all
        (fun name => !(initAssignedNames false).contains name
          && !(initAssignedNames true).contains name)) = true
    ∧ hitsMissingAttr requestReadsPreNet (initAssignedNames false) = true
    ∧ hitsMissingAttr requestReadsPreNet (initAssignedNames true) = true
    ∧ hitsMissingAttr writePointsHttpReadsPreNet (initAssignedNames false) = true
    ∧ hitsMissingAttr writePointsHttpReadsPreNet (initAssignedNames true) = true
    ∧ hitsMissingAttr writePointsUdpReadsPreNet (initAssignedNames true) = true
    ∧ hitsMissingAttr queryReadsPreNet (initAssignedNames false) = true
    ∧ hitsMissingAttr queryReadsPreNet (initAssignedNames true) = true := by
  decide

/-- C3 counterexample: `"sm"` is not one of `"s"`, `"m"`, `"u"`, yet a
`write_points` call with `time_precision="sm"`, a truthy `batch_size`
and no datasets is not rejected at all: the substring assertion
passes, the batch loop body never runs, and the call returns normally
— no exception is raised, contradicting "the call is rejected
(raises)".  (No network call happens either.) -/
theorem c3_batch_call_not_rejected :
    (["s", "m", "u"] : List String).contains "sm" = false
    ∧ pyInStr "sm" "smu" = true
    ∧ write_points exClient exResp [] (some 1) "sm" = (Except.ok (), []) := by
  refine ⟨by decide, by decide, rfl⟩

/-- C3 amended: the precision check is Python's substring test against
`"smu"`.  A `time_precision` that is not a contiguous substring of
`"smu"` makes `write_points` and `query` raise `AssertionError` with
no network call; substrings outside `{s, m, u}` (`""`, `"sm"`, `"mu"`,
`"smu"`) pass the check, and the call is not rejected by the
validation — it continues (raising later on the unassigned
`_database`, or `NameError` on the unbound `n`, or returning normally
when a truthy batch has no rows).  In every case, for every
`time_precision`, no network call is made. -/
theorem c3_non_substring_rejected (c : Client) (resp : Response)
    (data : List Series) (bs : Option Nat) (q tp tp2 : String) (chunked : Bool)
    (h : pyInStr tp "smu" = false) :
    (write_points c resp data bs tp = (Except.error PyErr.assertionError, [])
     ∧ query c resp q tp chunked = (Except.error PyErr.assertionError, []))
    ∧ ((write_points c resp data bs tp2).2 = []
       ∧ (query c resp q tp2 chunked).2 = []) := by
  refine ⟨⟨?_, ?_⟩, write_points_no_send c resp data bs tp2,
    (query_unreachable c resp q tp2 chunked).1⟩
  · unfold write_points
    simp [h]
  · unfold query
    simp [h]

/-- Witness for the amended C3 at `time_precision="ms"` (not a
substring of `"smu"`), with `"sm"` as the arbitrary second precision. -/
theorem c3_non_substring_rejected_witness :
    pyInStr "ms" "smu" = false
    ∧ write_points exClient exResp [cpuSeries] none "ms"
        = (Except.error PyErr.assertionError, [])
    ∧ query exClient exResp "select * from cpu" "ms" false
        = (Except.error PyErr.assertionError, [])
    ∧ (write_points exClient exResp [cpuSeries] none "sm").2 = [] :=
  ⟨by decide,
   (c3_non_substring_rejected exClient exResp [cpuSeries] none
      "select * from cpu" "ms" "sm" false (by decide)).1.1,
   (c3_non_substring_rejected exClient exResp [cpuSeries] none
      "select * from cpu" "ms" "sm" false (by decide)).1.2,
   (c3_non_substring_rejected exClient exResp [cpuSeries] none
      "select * from cpu" "ms" "sm" false (by decide)).2.1⟩

/-- C4 counterexample: with configured username `"root"` and a
caller-supplied parameter `u="evil"`, the call to `request` raises
`AttributeError` reading `self._username` (client.py line 79) while
building the auth dict, before the merge at line 83 and before any
HTTP call: no request is sent, so neither the auth value `u=root` nor
the caller value `u=evil` goes out — contradicting "both the auth
value and the caller value are sent". -/
theorem c4_nothing_ever_sent :
    request exClient exResp "db" "GET" [("u", PyVal.str "evil")] none 200
      = (Except.error (PyErr.attributeError "_username"), [])
    ∧ (((request exClient exResp "db" "GET" [("u", PyVal.str "evil")] none 200).2.map
          Effect.paramsOf).flatten).contains ("u", PyVal.str "root") = false
    ∧ (((request exClient exResp "db" "GET" [("u", PyVal.str "evil")] none 200).2.map
          Effect.paramsOf).flatten).contains ("u", PyVal.str "evil") = false := by
  refine ⟨rfl, by decide, by decide⟩

/-- C4 amended: `request` never injects or sends any query parameter:
building the auth dict at client.py lines 78-81 reads
`self._username`, a name `__init__` never assigns, so every call
raises `AttributeError` before the caller's parameters are merged and
before any HTTP call — no `u` or `p` value, auth or caller-supplied,
is ever sent. -/
theorem c4_auth_injection_unreachable (c : Client) (resp : Response)
    (url method : String) (params : List (String × PyVal)) (data : Option Json)
    (sc : Nat) :
    request c resp url method params data sc
      = (Except.error (PyErr.attributeError "_username"), [])
    ∧ ((request c resp url method params data sc).2.map Effect.paramsOf).flatten
        = [] := by
  refine ⟨request_attribute_error c resp url method params data sc, ?_⟩
  rw [request_attribute_error c resp url method params data sc]
  rfl

/-- C5: evaluation at the failing input.  The status-code check at
client.py lines 98-102 is unreachable: whether the server would
answer with the expected 200 or with a 404, `request` raises
`AttributeError` reading `self._username` (line 79) before the HTTP
call, so no `InfluxDBClientError` is ever raised and no raw response
is ever returned. -/
theorem c5_status_check_unreachable :
    request exClient ⟨200, "raw-body"⟩ "db/mydb/series" "GET" [] none 200
      = (Except.error (PyErr.attributeError "_username"), [])
    ∧ request exClient ⟨404, "raw-body"⟩ "db/mydb/series" "GET" [] none 200
      = (Except.error (PyErr.attributeError "_username"), []) := by
  constructor <;> rfl

/-- C6: evaluation at the failing input.  A non-batched `write_points`
raises `AttributeError` reading `self._database` (client.py line 135)
before the `use_udp` branch at line 138: the UDP-configured client
sends no datagram and the HTTP-configured client sends no POST — no
transport is ever reached (the claim's exclusivity holds only
vacuously: the effect list is empty in both modes). -/
theorem c6_no_transport_reached :
    write_points exClientUdp exResp [cpuSeries] none "s"
      = (Except.error (PyErr.attributeError "_database"), [])
    ∧ write_points exClient exResp [cpuSeries] none "s"
      = (Except.error (PyErr.attributeError "_database"), []) := by
  constructor <;> rfl

/-- C7: no operation ever changes the client's state — including the
password.  `update_database_user_password` raises `AttributeError`
reading `self._database` (client.py line 366) and never reaches the
assignment at line 380, so a password update for the configured
username leaves the stored password unchanged (and line 380 would in
any case assign `_password`, a different attribute from the
constructor's `password`). -/
theorem c7_rotation_unreachable :
    (∀ (c : Client) (resp : Response) (op : Op), runOpState c resp op = c)
    ∧ (update_database_user_password exClient exResp "root" "newpass").1
      = (Except.error (PyErr.attributeError "_database"), [])
    ∧ (update_database_user_password exClient exResp "root" "newpass").2.password
      = "root" := by
  refine ⟨?_, rfl, rfl⟩
  intro c resp op
  cases op <;>
    simp [runOpState, update_database_user_password, hasAttr_database]

/-- Every location in an operation's footprint is an attribute of that
operation's own instance. -/
theorem mem_footprint (id : Nat) (op : Op) (l : Loc) (h : l ∈ footprint id op) :
    ∃ nm, l = Loc.clientAttr id nm := by
  rcases List.mem_map.mp h with ⟨nm, _, rfl⟩
  exact ⟨nm, rfl⟩

/-- C8: operations on two distinct client instances read and write no
common mutable location.  Every operation aborts at its first missing
underscore attribute, so its footprint contains only its own
instance's attributes — in particular no operation ever reaches
`session.request` (client.py line 88) or `sendto` (line 107), so
neither the module-level session nor any socket is ever touched. -/
theorem c8_instances_share_no_state (id1 id2 : Nat) (op1 op2 : Op)
    (hne : id1 ≠ id2) :
    locsShareNothing (footprint id1 op1) (footprint id2 op2) = true := by
  apply List.all_eq_true.mpr
  intro l hl
  rcases mem_footprint id1 op1 l hl with ⟨nm, rfl⟩
  rw [decide_eq_true_eq]
  intro hmem
  rcases List.mem_map.mp hmem with ⟨nm2, _, heq⟩
  have : id2 = id1 := (Loc.clientAttr.injEq id2 nm2 id1 nm).mp heq |>.1
  exact hne this.symm

/-- Witness for C8 at instance identities 0 and 1 performing the same
`query`. -/
theorem c8_instances_share_no_state_witness :
    locsShareNothing
      (footprint 0 (Op.queryOp "select * from cpu" "s" false))
      (footprint 1 (Op.queryOp "select * from cpu" "s" false)) = true :=
  c8_instances_share_no_state 0 1
    (Op.queryOp "select * from cpu" "s" false)
    (Op.queryOp "select * from cpu" "s" false) (by decide)

/-- C9: evaluation at the failing input.  `query` raises
`AttributeError` reading `self._database` (client.py line 155) before
building its parameter dict and before `request`: no GET carrying `q`,
`time_precision` or `chunked` is ever issued and no decoded JSON is
ever returned, even though the oracle response is a 200 with a valid
JSON body. -/
theorem c9_query_unreachable :
    query exClient exResp "select * from cpu" "s" false
      = (Except.error (PyErr.attributeError "_database"), [])
    ∧ (query exClient exResp "select * from cpu" "s" false).2.map Effect.paramsOf
      = [] := by
  constructor <;> rfl

/-- C10 counterexample: a write with `batch_size=0` issues no write
call at all — it raises `AttributeError` reading `self._database`
(client.py line 135) with an empty effect list, in HTTP mode and in
UDP mode alike, contradicting "sent in a single write call (one HTTP
POST, or one UDP datagram)". -/
theorem c10_no_single_send :
    write_points exClient exResp [cpuSeries] (some 0) "s"
      = (Except.error (PyErr.attributeError "_database"), [])
    ∧ write_points exClientUdp exResp [cpuSeries] (some 0) "s"
      = (Except.error (PyErr.attributeError "_database"), []) := by
  constructor <;> rfl

/-- C10 amended: `batch_size=0` is falsy in Python, so the call is
treated exactly as if no batch size had been given — `write_points`
with `batch_size=0` and with the default are the same function of the
remaining arguments, and no splitting occurs — but the shared
non-batched path raises `AttributeError` on the unassigned `_database`
before any send, so nothing (no POST, no datagram) is ever sent. -/
theorem c10_zero_batch_same_path_nothing_sent (c : Client) (resp : Response)
    (data : List Series) (tp : String) :
    write_points c resp data (some 0) tp = write_points c resp data none tp
    ∧ (write_points c resp data (some 0) tp).2 = [] :=
  ⟨rfl, write_points_no_send c resp data (some 0) tp⟩

end Influx
